import Mathlib

/-
Verification of the TrackPal Sensor Binding Layer declaration surface
(src/TrackPal/Sources/MultitouchSupport.h).

The header contains no executable logic: it declares C type layouts
(MTPoint, MTVector, MTTouch), two callback function-pointer typedefs and
a list of function prototypes binding to the private MultitouchSupport
framework.  The shallow embedding below models that declaration surface
as data: C types as an inductive, struct bodies as ordered field lists,
and each prototype as a record of its name, parameter list and return
type (with the nullability and retain-transfer annotations the header
carries).  Byte sizes, alignments and field offsets follow the LP64
Darwin C ABI the header targets (int/float 4 bytes, double and pointers
8 bytes, struct fields laid out in order with natural alignment).
-/

/-- C types appearing in MultitouchSupport.h, as declared there.
Struct types and the two callback typedefs get dedicated constructors;
`ptr` covers the pointer types the header forms from them. -/
inductive CType where
  | cint
  | cfloat
  | cdouble
  | cbool
  | osStatus
  | voidTy
  | ptr (t : CType)
  | cfArrayRef
  | mtPointS
  | mtVectorS
  | mtTouchS
  | cbContact
  | cbContactRefcon
deriving DecidableEq

/-- Byte size of each C type under the LP64 Darwin ABI the header binds to. -/
def CType.sizeofBytes : CType → Nat
  | .cint => 4
  | .cfloat => 4
  | .cdouble => 8
  | .cbool => 1
  | .osStatus => 4
  | .voidTy => 0
  | .ptr _ => 8
  | .cfArrayRef => 8
  | .mtPointS => 8
  | .mtVectorS => 16
  | .mtTouchS => 96
  | .cbContact => 8
  | .cbContactRefcon => 8

/-- Natural alignment of each C type under the same ABI. -/
def CType.alignof : CType → Nat
  | .cint => 4
  | .cfloat => 4
  | .cdouble => 8
  | .cbool => 1
  | .osStatus => 4
  | .voidTy => 1
  | .ptr _ => 8
  | .cfArrayRef => 8
  | .mtPointS => 4
  | .mtVectorS => 4
  | .mtTouchS => 8
  | .cbContact => 8
  | .cbContactRefcon => 8

/-- Bit width of a C type. -/
def CType.bitWidth (t : CType) : Nat := 8 * t.sizeofBytes

/-- Whether a C type is a 32-bit signed integer type (C `int`, or the
32-bit signed `OSStatus`). -/
def CType.isSignedInt32 : CType → Bool
  | .cint => true
  | .osStatus => true
  | _ => false

/-- Round `off` up to the next multiple of alignment `a`. -/
def alignUp (off a : Nat) : Nat :=
  if a = 0 then off else ((off + a - 1) / a) * a

/-- Byte offset of each field of a C struct whose first field would start
at offset `off`, laying fields out in declaration order with natural
alignment (the C struct layout rule). -/
def structOffsetsFrom : Nat → List (String × CType) → List (String × Nat)
  | _, [] => []
  | off, (n, t) :: rest =>
    let o := alignUp off t.alignof
    (n, o) :: structOffsetsFrom (o + t.sizeofBytes) rest

/-- End offset (offset one past the last field) of a C struct body. -/
def structEnd : Nat → List (String × CType) → Nat
  | off, [] => off
  | off, (_, t) :: rest => structEnd (alignUp off t.alignof + t.sizeofBytes) rest

/-- Strictest alignment among a struct body's fields. -/
def maxAlign (fs : List (String × CType)) : Nat :=
  fs.foldr (fun f a => max f.2.alignof a) 1

/-- Field offsets of a struct starting at offset zero. -/
def structOffsets (fs : List (String × CType)) : List (String × Nat) :=
  structOffsetsFrom 0 fs

/-- Total size of a C struct: end offset rounded up to the struct's own
alignment. -/
def structSize (fs : List (String × CType)) : Nat :=
  alignUp (structEnd 0 fs) (maxAlign fs)

/-- The typedef `MTDeviceRef`: an opaque handle declared as `void *`. -/
def MTDeviceRef : CType := .ptr .voidTy

/-- Fields of `struct MTPoint` in declaration order. -/
def MTPoint.fields : List (String × CType) :=
  [("x", .cfloat), ("y", .cfloat)]

/-- Fields of `struct MTVector` in declaration order. -/
def MTVector.fields : List (String × CType) :=
  [("position", .mtPointS), ("velocity", .mtPointS)]

/-- Fields of `struct MTTouch` in declaration order. -/
def MTTouch.fields : List (String × CType) :=
  [("frame", .cint),
   ("timestamp", .cdouble),
   ("identifier", .cint),
   ("state", .cint),
   ("fingerId", .cint),
   ("handId", .cint),
   ("normalized", .mtVectorS),
   ("size", .cfloat),
   ("zero1", .cint),
   ("angle", .cfloat),
   ("majorAxis", .cfloat),
   ("minorAxis", .cfloat),
   ("absoluteVector", .mtVectorS),
   ("zero2", .cint),
   ("zero3", .cint),
   ("density", .cfloat)]

/-- Parameters of the `MTContactCallbackFunction` typedef, in order. -/
def MTContactCallbackFunction.params : List (String × CType) :=
  [("device", MTDeviceRef),
   ("touches", .ptr .mtTouchS),
   ("numTouches", .cint),
   ("timestamp", .cdouble),
   ("frame", .cint)]

/-- Return type of `MTContactCallbackFunction` (void). -/
def MTContactCallbackFunction.ret : CType := .voidTy

/-- Parameters of the `MTContactCallbackFunctionWithRefcon` typedef, in order. -/
def MTContactCallbackFunctionWithRefcon.params : List (String × CType) :=
  [("device", MTDeviceRef),
   ("touches", .ptr .mtTouchS),
   ("numTouches", .cint),
   ("timestamp", .cdouble),
   ("frame", .cint),
   ("refcon", .ptr .voidTy)]

/-- Return type of `MTContactCallbackFunctionWithRefcon` (void). -/
def MTContactCallbackFunctionWithRefcon.ret : CType := .voidTy

/-- Resolves a callback C type to the parameter list and return type of
the typedef it names. -/
def callbackSignature : CType → Option (List (String × CType) × CType)
  | .cbContact => some (MTContactCallbackFunction.params, MTContactCallbackFunction.ret)
  | .cbContactRefcon =>
    some (MTContactCallbackFunctionWithRefcon.params, MTContactCallbackFunctionWithRefcon.ret)
  | _ => none

/-- One declared function prototype: its symbol name, parameter list,
return type, and the two annotations the header places on return values
(`_Nullable` and `CF_RETURNS_RETAINED`). -/
structure FunDecl where
  name : String
  params : List (String × CType)
  ret : CType
  retNullable : Bool
  retRetained : Bool
deriving DecidableEq

/-- Prototype `CF_RETURNS_RETAINED CFArrayRef _Nullable MTDeviceCreateList(void)`. -/
def MTDeviceCreateList.decl : FunDecl :=
  ⟨"MTDeviceCreateList", [], .cfArrayRef, true, true⟩

/-- Prototype `void MTRegisterContactFrameCallback(MTDeviceRef, MTContactCallbackFunction)`. -/
def MTRegisterContactFrameCallback.decl : FunDecl :=
  ⟨"MTRegisterContactFrameCallback",
   [("device", MTDeviceRef), ("callback", .cbContact)], .voidTy, false, false⟩

/-- Prototype `void MTUnregisterContactFrameCallback(MTDeviceRef, MTContactCallbackFunction)`. -/
def MTUnregisterContactFrameCallback.decl : FunDecl :=
  ⟨"MTUnregisterContactFrameCallback",
   [("device", MTDeviceRef), ("callback", .cbContact)], .voidTy, false, false⟩

/-- Prototype `void MTRegisterContactFrameCallbackWithRefcon(MTDeviceRef, MTContactCallbackFunctionWithRefcon, void *)`. -/
def MTRegisterContactFrameCallbackWithRefcon.decl : FunDecl :=
  ⟨"MTRegisterContactFrameCallbackWithRefcon",
   [("device", MTDeviceRef), ("callback", .cbContactRefcon), ("refcon", .ptr .voidTy)],
   .voidTy, false, false⟩

/-- Prototype `void MTDeviceStart(MTDeviceRef, int)`. -/
def MTDeviceStart.decl : FunDecl :=
  ⟨"MTDeviceStart", [("device", MTDeviceRef), ("mode", .cint)], .voidTy, false, false⟩

/-- Prototype `void MTDeviceStop(MTDeviceRef)`. -/
def MTDeviceStop.decl : FunDecl :=
  ⟨"MTDeviceStop", [("device", MTDeviceRef)], .voidTy, false, false⟩

/-- Prototype `bool MTDeviceIsRunning(MTDeviceRef)`. -/
def MTDeviceIsRunning.decl : FunDecl :=
  ⟨"MTDeviceIsRunning", [("device", MTDeviceRef)], .cbool, false, false⟩

/-- Prototype `int MTDeviceGetDeviceID(MTDeviceRef)`. -/
def MTDeviceGetDeviceID.decl : FunDecl :=
  ⟨"MTDeviceGetDeviceID", [("device", MTDeviceRef)], .cint, false, false⟩

/-- Prototype `int MTDeviceGetFamilyID(MTDeviceRef)`. -/
def MTDeviceGetFamilyID.decl : FunDecl :=
  ⟨"MTDeviceGetFamilyID", [("device", MTDeviceRef)], .cint, false, false⟩

/-- Prototype `bool MTDeviceIsBuiltIn(MTDeviceRef)`. -/
def MTDeviceIsBuiltIn.decl : FunDecl :=
  ⟨"MTDeviceIsBuiltIn", [("device", MTDeviceRef)], .cbool, false, false⟩

/-- Prototype `OSStatus MTDeviceGetSensorSurfaceDimensions(MTDeviceRef, int *, int *)`. -/
def MTDeviceGetSensorSurfaceDimensions.decl : FunDecl :=
  ⟨"MTDeviceGetSensorSurfaceDimensions",
   [("device", MTDeviceRef), ("width", .ptr .cint), ("height", .ptr .cint)],
   .osStatus, false, false⟩

/-- All function prototypes of the header, in declaration order
(lines 42-52 of MultitouchSupport.h). -/
def headerFunctions : List FunDecl :=
  [MTDeviceCreateList.decl,
   MTRegisterContactFrameCallback.decl,
   MTUnregisterContactFrameCallback.decl,
   MTRegisterContactFrameCallbackWithRefcon.decl,
   MTDeviceStart.decl,
   MTDeviceStop.decl,
   MTDeviceIsRunning.decl,
   MTDeviceGetDeviceID.decl,
   MTDeviceGetFamilyID.decl,
   MTDeviceIsBuiltIn.decl,
   MTDeviceGetSensorSurfaceDimensions.decl]

/-- Whether a prototype exposes a failure channel through its return
value: a nullable result (absence) or an `OSStatus` status code. -/
def FunDecl.failureChannel (f : FunDecl) : Bool :=
  f.retNullable || f.ret == CType.osStatus

/-- The field descriptors the spec's data-model table lists for the
touch-sample record. -/
inductive SpecFieldDesc where
  | frameCounter
  | timestampF
  | touchId
  | stateCode
  | fingerIdent
  | handIdent
  | normalizedVec
  | sizeF
  | angleF
  | majorAxisF
  | minorAxisF
  | absoluteVec
  | densityF
  | reservedZero
deriving DecidableEq

/-- Reading of each MTTouch field name as the spec descriptor it denotes:
`frame` is the frame counter, `state` the lifecycle state code,
`normalized` the normalized motion vector, `zero1..zero3` the reserved
zero fields, and so on. -/
def specDescOf : String → Option SpecFieldDesc
  | "frame" => some .frameCounter
  | "timestamp" => some .timestampF
  | "identifier" => some .touchId
  | "state" => some .stateCode
  | "fingerId" => some .fingerIdent
  | "handId" => some .handIdent
  | "normalized" => some .normalizedVec
  | "size" => some .sizeF
  | "angle" => some .angleF
  | "majorAxis" => some .majorAxisF
  | "minorAxis" => some .minorAxisF
  | "absoluteVector" => some .absoluteVec
  | "density" => some .densityF
  | "zero1" => some .reservedZero
  | "zero2" => some .reservedZero
  | "zero3" => some .reservedZero
  | _ => none

/-- The spec's enumeration of touch-sample fields, in the order written:
frame counter, timestamp, touch identifier, lifecycle state code, finger
and hand identifiers, normalized motion vector, size, angle, major and
minor axis lengths, absolute motion vector, density (the reserved zero
fields are listed separately as an unordered extra). -/
def specTouchFieldOrder : List SpecFieldDesc :=
  [.frameCounter, .timestampF, .touchId, .stateCode, .fingerIdent, .handIdent,
   .normalizedVec, .sizeF, .angleF, .majorAxisF, .minorAxisF, .absoluteVec, .densityF]

/-- Modelled from the spec: the external framework's per-device running
state.  The framework's implementation is absent from src/ (the header
only declares `MTDeviceStart`, `MTDeviceStop` and `MTDeviceIsRunning`);
the spec states that starting a device transitions its is-running
observation to true and stopping transitions it to false, with the mode
integer passed through opaquely. -/
structure MTDeviceModel where
  running : Bool
  mode : Int
deriving DecidableEq

/-- Modelled from the spec: `MTDeviceStart` begins frame delivery for the
device in the given opaque mode. -/
def MTDeviceStart.model (_d : MTDeviceModel) (mode : Int) : MTDeviceModel :=
  ⟨true, mode⟩

/-- Modelled from the spec: `MTDeviceStop` halts frame delivery. -/
def MTDeviceStop.model (d : MTDeviceModel) : MTDeviceModel :=
  ⟨false, d.mode⟩

/-- Modelled from the spec: `MTDeviceIsRunning` reports the current
start/stop state. -/
def MTDeviceIsRunning.model (d : MTDeviceModel) : Bool :=
  d.running

/-- C1: the touch-sample record declares exactly the fields the spec
lists — frame counter, timestamp, touch identifier, lifecycle state
code, finger and hand identifiers, normalized motion vector, size,
angle, major and minor axis lengths, absolute motion vector, density,
and reserved zero fields — in a fixed declaration order with fixed
field widths, yielding the fixed binary layout (offsets and total size)
that is the cross-boundary contract. -/
theorem mttouch_record_matches_spec_field_inventory :
    MTTouch.fields.all (fun f => (specDescOf f.1).isSome)
    ∧ (MTTouch.fields.filterMap (fun f => specDescOf f.1)).filter
        (fun d => d != SpecFieldDesc.reservedZero) = specTouchFieldOrder
    ∧ (MTTouch.fields.filter
        (fun f => specDescOf f.1 == some SpecFieldDesc.reservedZero)).all
        (fun f => f.2 == CType.cint)
    ∧ MTTouch.fields.all (fun f => f.2.sizeofBytes != 0)
    ∧ structOffsets MTTouch.fields =
        [("frame", 0), ("timestamp", 8), ("identifier", 16), ("state", 20),
         ("fingerId", 24), ("handId", 28), ("normalized", 32), ("size", 48),
         ("zero1", 52), ("angle", 56), ("majorAxis", 60), ("minorAxis", 64),
         ("absoluteVector", 68), ("zero2", 84), ("zero3", 88), ("density", 92)]
    ∧ structSize MTTouch.fields = CType.sizeofBytes CType.mtTouchS := by
  decide

/-- C2 counterexample: the header's declaration surface does not consist
of nine function signatures — `headerFunctions` (the eleven prototypes
of lines 42-52) has length eleven, not nine. -/
theorem header_function_count_not_nine :
    ¬ (headerFunctions.length = 9) := by
  decide

/-- C2 amended: the binding layer's declaration surface consists of
exactly eleven control functions (eleven distinct function signatures),
no more and no fewer. -/
theorem header_function_count_eleven :
    headerFunctions.length = 11
    ∧ (headerFunctions.map FunDecl.name).Nodup
    ∧ headerFunctions.map FunDecl.name =
        ["MTDeviceCreateList",
         "MTRegisterContactFrameCallback",
         "MTUnregisterContactFrameCallback",
         "MTRegisterContactFrameCallbackWithRefcon",
         "MTDeviceStart",
         "MTDeviceStop",
         "MTDeviceIsRunning",
         "MTDeviceGetDeviceID",
         "MTDeviceGetFamilyID",
         "MTDeviceIsBuiltIn",
         "MTDeviceGetSensorSurfaceDimensions"] := by
  decide

/-- C3: among all declared operations, exactly two have a failure
channel — device listing (nullable result) and the sensor-surface
dimensions query (OSStatus return); the lifecycle calls start and stop
return void, hence no observable failure channel. -/
theorem failure_channels_limited_to_list_and_dimensions :
    (headerFunctions.filter FunDecl.failureChannel).map FunDecl.name =
      ["MTDeviceCreateList", "MTDeviceGetSensorSurfaceDimensions"]
    ∧ MTDeviceCreateList.decl.retNullable = true
    ∧ MTDeviceGetSensorSurfaceDimensions.decl.ret = CType.osStatus
    ∧ MTDeviceStart.decl.ret = CType.voidTy
    ∧ MTDeviceStop.decl.ret = CType.voidTy := by
  decide

/-- C4: the list-devices operation takes no arguments and returns a
nullable (absence-admitting) collection whose ownership transfers to
the caller, as the CF_RETURNS_RETAINED and _Nullable annotations on its
prototype record. -/
theorem device_create_list_signature_nullable_retained :
    MTDeviceCreateList.decl ∈ headerFunctions
    ∧ MTDeviceCreateList.decl.params = []
    ∧ MTDeviceCreateList.decl.ret = CType.cfArrayRef
    ∧ MTDeviceCreateList.decl.retNullable = true
    ∧ MTDeviceCreateList.decl.retRetained = true := by
  decide

/-- C5: the simple callback type takes exactly device handle, touch
array, count, timestamp and frame number in that order; the refcon
variant takes the same five followed by one opaque context pointer; and
the register operations take a device handle plus a callback of the
matching type (plus the context pointer for the refcon variant). -/
theorem callback_shapes_and_register_signatures :
    MTContactCallbackFunction.params.length = 5
    ∧ MTContactCallbackFunction.params.map Prod.fst =
        ["device", "touches", "numTouches", "timestamp", "frame"]
    ∧ MTContactCallbackFunction.params.map Prod.snd =
        [MTDeviceRef, CType.ptr CType.mtTouchS, CType.cint, CType.cdouble, CType.cint]
    ∧ MTContactCallbackFunctionWithRefcon.params =
        MTContactCallbackFunction.params ++ [("refcon", CType.ptr CType.voidTy)]
    ∧ MTRegisterContactFrameCallback.decl.params.map Prod.snd =
        [MTDeviceRef, CType.cbContact]
    ∧ callbackSignature CType.cbContact =
        some (MTContactCallbackFunction.params, CType.voidTy)
    ∧ MTRegisterContactFrameCallbackWithRefcon.decl.params.map Prod.snd =
        [MTDeviceRef, CType.cbContactRefcon, CType.ptr CType.voidTy]
    ∧ callbackSignature CType.cbContactRefcon =
        some (MTContactCallbackFunctionWithRefcon.params, CType.voidTy) := by
  decide

/-- C6: for every device, after the start operation the is-running query
observes true, and after the stop operation it observes false (over the
spec-modelled device state, since the framework holds this state outside
the repository). -/
theorem start_stop_running_observation (d : MTDeviceModel) (mode : Int) :
    MTDeviceIsRunning.model (MTDeviceStart.model d mode) = true
    ∧ MTDeviceIsRunning.model (MTDeviceStop.model d) = false :=
  ⟨rfl, rfl⟩

/-- C7: the 2D point type is exactly a pair of 32-bit floats named x and
y, and the motion-vector type is exactly a position point followed by a
velocity point, with no other fields; their computed layouts match their
declared ABI sizes. -/
theorem point_and_vector_layout :
    MTPoint.fields = [("x", CType.cfloat), ("y", CType.cfloat)]
    ∧ CType.cfloat.bitWidth = 32
    ∧ MTVector.fields = [("position", CType.mtPointS), ("velocity", CType.mtPointS)]
    ∧ structSize MTPoint.fields = CType.sizeofBytes CType.mtPointS
    ∧ structSize MTVector.fields = CType.sizeofBytes CType.mtVectorS := by
  decide

/-- C8: the start operation takes a device handle and one opaque integer
mode parameter, the stop operation takes only the device handle, and
both return void. -/
theorem start_stop_signatures :
    MTDeviceStart.decl.params = [("device", MTDeviceRef), ("mode", CType.cint)]
    ∧ MTDeviceStart.decl.ret = CType.voidTy
    ∧ MTDeviceStop.decl.params = [("device", MTDeviceRef)]
    ∧ MTDeviceStop.decl.ret = CType.voidTy := by
  decide

/-- C9: the touch-sample record contains exactly three reserved zero
fields, each a 32-bit int, interleaved in the record: zero1 directly
between size and angle, zero2 and zero3 directly between the absolute
motion vector and density, and density is the final field. -/
theorem reserved_zero_fields_interleaved :
    MTTouch.fields.filter
        (fun f => specDescOf f.1 == some SpecFieldDesc.reservedZero) =
      [("zero1", CType.cint), ("zero2", CType.cint), ("zero3", CType.cint)]
    ∧ (MTTouch.fields.map Prod.fst).indexOf "zero1" =
        (MTTouch.fields.map Prod.fst).indexOf "size" + 1
    ∧ (MTTouch.fields.map Prod.fst).indexOf "angle" =
        (MTTouch.fields.map Prod.fst).indexOf "zero1" + 1
    ∧ (MTTouch.fields.map Prod.fst).indexOf "zero2" =
        (MTTouch.fields.map Prod.fst).indexOf "absoluteVector" + 1
    ∧ (MTTouch.fields.map Prod.fst).indexOf "zero3" =
        (MTTouch.fields.map Prod.fst).indexOf "zero2" + 1
    ∧ (MTTouch.fields.map Prod.fst).getLast? = some "density"
    ∧ CType.cint.bitWidth = 32 := by
  decide

/-- C10: every timestamp in the interface (the MTTouch timestamp field
and the timestamp parameter of both callback types) is a 64-bit double,
and every counter and identifier exposed — frame numbers, touch, finger
and hand identifiers, state code, touch count, device ID, family ID,
mode, and the width and height outputs — is a 32-bit signed int. -/
theorem timestamps_double_counters_int32 :
    List.lookup "timestamp" MTTouch.fields = some CType.cdouble
    ∧ MTTouch.fields.filter (fun f => f.2 == CType.cdouble) =
        [("timestamp", CType.cdouble)]
    ∧ List.lookup "timestamp" MTContactCallbackFunction.params = some CType.cdouble
    ∧ MTContactCallbackFunction.params.filter (fun f => f.2 == CType.cdouble) =
        [("timestamp", CType.cdouble)]
    ∧ List.lookup "timestamp" MTContactCallbackFunctionWithRefcon.params =
        some CType.cdouble
    ∧ MTContactCallbackFunctionWithRefcon.params.filter
        (fun f => f.2 == CType.cdouble) = [("timestamp", CType.cdouble)]
    ∧ List.lookup "frame" MTTouch.fields = some CType.cint
    ∧ List.lookup "identifier" MTTouch.fields = some CType.cint
    ∧ List.lookup "state" MTTouch.fields = some CType.cint
    ∧ List.lookup "fingerId" MTTouch.fields = some CType.cint
    ∧ List.lookup "handId" MTTouch.fields = some CType.cint
    ∧ List.lookup "numTouches" MTContactCallbackFunction.params = some CType.cint
    ∧ List.lookup "frame" MTContactCallbackFunction.params = some CType.cint
    ∧ List.lookup "numTouches" MTContactCallbackFunctionWithRefcon.params =
        some CType.cint
    ∧ List.lookup "frame" MTContactCallbackFunctionWithRefcon.params =
        some CType.cint
    ∧ MTDeviceGetDeviceID.decl.ret = CType.cint
    ∧ MTDeviceGetFamilyID.decl.ret = CType.cint
    ∧ List.lookup "mode" MTDeviceStart.decl.params = some CType.cint
    ∧ List.lookup "width" MTDeviceGetSensorSurfaceDimensions.decl.params =
        some (CType.ptr CType.cint)
    ∧ List.lookup "height" MTDeviceGetSensorSurfaceDimensions.decl.params =
        some (CType.ptr CType.cint)
    ∧ CType.cdouble.bitWidth = 64
    ∧ CType.cint.bitWidth = 32
    ∧ CType.cint.isSignedInt32 = true := by
  decide
